import Mathlib

/-!
Verification of the pinia-extract core against its specification.

The development shallowly embeds the relevant source modules:
  - the immutable-state proxy handler (constants.ts),
  - the plugin with defineGetter / defineAction / onAction / dispose (plugin.ts),
  - the subscription helpers (pinia-subscriptions.ts),
  - the composition helpers useGetter / useGetterFactory (getters-utils.ts).

JavaScript values are modelled by an inductive type; machine behaviour such
as typeof, property access, and the default forwarding of untrapped proxy
operations is transcribed explicitly.
-/

namespace PiniaExtract

mutual

/-- Model of a JavaScript value: primitives, plain objects with string keys,
and functions (identified by a tag, since the claims only depend on their
typeof and identity). -/
inductive JSVal where
  | vundefined
  | vnull
  | vbool (b : Bool)
  | vnum (n : Int)
  | vstr (s : String)
  | vobj (fields : JSFields)
  | vfunc (tag : Nat)
deriving DecidableEq, Repr

/-- Ordered field list of a plain JavaScript object. -/
inductive JSFields where
  | nil
  | cons (key : String) (value : JSVal) (rest : JSFields)
deriving DecidableEq, Repr

end

/-- Lookup of a string key in an object field list (first match). -/
def JSFields.lookupKey : JSFields → String → Option JSVal
  | .nil, _ => none
  | .cons k v rest, key => if k = key then some v else rest.lookupKey key

/-- Removing a string key from an object field list (Reflect.deleteProperty
on a plain object removes the own property). -/
def JSFields.removeKey : JSFields → String → JSFields
  | .nil, _ => .nil
  | .cons k v rest, key =>
    if k = key then rest.removeKey key else .cons k v (rest.removeKey key)

/-- Writing a string key in an object field list: overwrites in place when
present, appends otherwise (Reflect.defineProperty on a plain object). -/
def JSFields.writeKey : JSFields → String → JSVal → JSFields
  | .nil, key, v => .cons key v .nil
  | .cons k w rest, key, v =>
    if k = key then .cons k v rest else .cons k w (rest.writeKey key v)

/-- Transcription of the typeof operator for the modelled values.
Note typeof null is the string object, as in JavaScript. -/
def typeofVal : JSVal → String
  | .vundefined => "undefined"
  | .vnull => "object"
  | .vbool _ => "boolean"
  | .vnum _ => "number"
  | .vstr _ => "string"
  | .vobj _ => "object"
  | .vfunc _ => "function"

/-- Property access target[key] for a string key: the stored value on an
object that has the key, undefined otherwise (ambient JavaScript semantics,
needed by the proxy get trap). -/
def getField : JSVal → String → JSVal
  | .vobj fields, k =>
    match fields.lookupKey k with
    | some v => v
    | none => .vundefined
  | _, _ => .vundefined

/-- Property keys as used through the immutable view: ordinary string keys,
plus the reserved unwrap marker IMMUTABLE_STATE_PROXY_UNWRAP_KEY, which is a
fresh Symbol and therefore never occurs as a key of a plain state object. -/
inductive PropKey where
  | str (s : String)
  | unwrapSymbol
deriving DecidableEq, Repr

/-- Property access for a PropKey on a plain (non-proxied) value: the unwrap
marker is a fresh Symbol, so it is absent on every plain object. -/
def jsGet (v : JSVal) : PropKey → JSVal
  | .str s => getField v s
  | .unwrapSymbol => .vundefined

/-- Result of reading a property through the machinery of getters-utils:
either a raw JavaScript value, or a proxy (an immutable view) over a target
node, written view t for new Proxy(t, IMMUTABLE_STATE_PROXY_HANDLER). -/
inductive ViewRead where
  | view (target : JSVal)
  | raw (v : JSVal)
deriving DecidableEq, Repr

/-- The get trap of IMMUTABLE_STATE_PROXY_HANDLER (constants.ts lines 4-15):
the unwrap marker returns the target itself; a property whose value has
typeof object and is not null is wrapped in a new proxy; everything else is
returned directly. -/
def proxyGet (target : JSVal) : PropKey → ViewRead
  | .unwrapSymbol => .raw target
  | .str s =>
    if typeofVal (getField target s) = "object" ∧ getField target s ≠ .vnull then
      .view (getField target s)
    else
      .raw (getField target s)

/-- The error message thrown by the set trap of the handler. -/
def mutationGuardMsg : String := "Mutations in getters are not allowed."

/-- The data-changing operations one can attempt on a proxy: plain property
assignment, property deletion, and property (re)definition. -/
inductive MutOp where
  | assign (key : PropKey) (v : JSVal)
  | deleteProp (key : String)
  | defineProp (key : String) (v : JSVal)
deriving DecidableEq, Repr

/-- Deleting a string-keyed property from a plain value (ambient JavaScript
semantics of Reflect.deleteProperty on the target). -/
def deleteField : JSVal → String → JSVal
  | .vobj fields, k => .vobj (fields.removeKey k)
  | v, _ => v

/-- Defining (adding or overwriting) a string-keyed property on a plain value
(ambient JavaScript semantics of Reflect.defineProperty on the target). -/
def setField : JSVal → String → JSVal → JSVal
  | .vobj fields, k, v => .vobj (fields.writeKey k v)
  | t, _, _ => t

/-- Applying a data-changing operation to a proxy whose handler is
IMMUTABLE_STATE_PROXY_HANDLER. The handler declares only get and set traps
(constants.ts lines 3-19), so assignment hits the set trap and throws the
guard error, while deleteProperty and defineProperty have no trap and are
forwarded to the target by the proxy machinery, returning the mutated target. -/
def proxyMutate (target : JSVal) : MutOp → Except String JSVal
  | .assign _ _ => .error mutationGuardMsg
  | .deleteProp k => .ok (deleteField target k)
  | .defineProp k v => .ok (setField target k v)

/-- One property-read step, threading the root raw state: a read on a view
goes through the get trap, which contains no write in any branch and hence
returns the root unchanged; a read on a raw value is ambient property access. -/
def readStepSt : ViewRead × JSVal → PropKey → ViewRead × JSVal
  | (.view t, root), k => (proxyGet t k, root)
  | (.raw v, root), k => (.raw (jsGet v k), root)

/-- Reading an access path (a list of property keys) starting from a read
result, threading the root raw state through every step. -/
def readPathSt : ViewRead × JSVal → List PropKey → ViewRead × JSVal
  | r, [] => r
  | r, k :: ks => readPathSt (readStepSt r k) ks

/-! Getter composition engine (plugin.ts, defineGetter, lines 68-93). -/

/-- An external getter as returned by defineGetter: the getter function itself
together with the owning store attached at definition time (line 90). The
store context is kept abstract in the type St. -/
structure ExternalGetter (St : Type) where
  run : JSVal → JSVal
  store : St

/-- Transcription of defineGetter (plugin lines 68-93). The last argument of
the source call is the combiner; the remaining arguments are the dependency
list. When the dependency list is nonempty, each dependency is applied to the
state in order and the results are passed positionally to the combiner, which
is applied with the owning store as execution context; when it is empty, the
state itself is pushed as the sole combiner argument. Positional combiner
arguments are modelled as the list handed to the combiner. -/
def defineGetter {St : Type} (store : St) (args : List (JSVal → JSVal))
    (combiner : St → List JSVal → JSVal) : ExternalGetter St :=
  { run := fun state =>
      if args.length ≠ 0 then
        combiner store (args.map (fun d => d state))
      else
        combiner store [state],
    store := store }

/-- Addition as performed by the + operator of the concrete scenario (numbers
only, the sole case exercised there). -/
def jsAdd : JSVal → JSVal → JSVal
  | .vnum a, .vnum b => .vnum (a + b)
  | _, _ => .vundefined

/-- The concrete state of the specification scenario:
state = data: codes: a: 2, status: 1. -/
def specScenarioState : JSVal :=
  .vobj (.cons "data" (.vobj (.cons "codes" (.vobj (.cons "a" (.vnum 2) .nil)) .nil))
    (.cons "status" (.vnum 1) .nil))

/-- Scenario getter getCodes = compose(s => s.data, data => data.codes). -/
def getCodes : ExternalGetter Unit :=
  defineGetter () [fun s => getField s "data"]
    (fun _ vs => getField (vs.getD 0 .vundefined) "codes")

/-- Scenario getter getCodeA = compose(getCodes, codes => codes.a). -/
def getCodeA : ExternalGetter Unit :=
  defineGetter () [getCodes.run]
    (fun _ vs => getField (vs.getD 0 .vundefined) "a")

/-- Scenario getter getSum = compose(s => s.status, getCodeA, (status, a) => status + a). -/
def getSum : ExternalGetter Unit :=
  defineGetter () [fun s => getField s "status", getCodeA.run]
    (fun _ vs => jsAdd (vs.getD 0 .vundefined) (vs.getD 1 .vundefined))

/-! Reactive binding layer (getters-utils.ts, useGetter and useGetterFactory). -/

/-- Result of typeof on a getter result: a proxy reports the typeof of its
target, a raw value its own. -/
def typeofRead : ViewRead → String
  | .view t => typeofVal t
  | .raw v => typeofVal v

/-- Strict-equality test of a getter result against null: only the raw null
value is null; a proxy never is. -/
def isNullRead : ViewRead → Bool
  | .raw .vnull => true
  | _ => false

/-- checkImmutability (getters-utils lines 146-148): the value has typeof
object and is not null. -/
def checkImmutability (r : ViewRead) : Bool :=
  typeofRead r = "object" && !(isNullRead r)

/-- Reading the reserved unwrap marker of a getter result: on a proxy the get
trap returns the target; on a raw value the marker is a fresh Symbol absent
from every plain object, so the access yields undefined. -/
def readUnwrapKey : ViewRead → JSVal
  | .view t => t
  | .raw v => jsGet v .unwrapSymbol

/-- The pull function built by useGetter (lines 194-201), and with identical
unwrap logic by useGetterFactory (lines 252-269): evaluate the getter against
getImmutableState(store.$state) — the proxy over the raw store state, which is
determined by its target, so the embedded getter takes the target — and, when
checkImmutability holds of the result, replace it by its unwrap-marker
property before handing it to the reactive primitive. -/
def useGetterPull (storeState : JSVal) (getter : JSVal → ViewRead) : ViewRead :=
  let r := getter storeState
  if checkImmutability r then .raw (readUnwrapKey r) else r

/-- Record of one invocation of the backing action by the setter: the
execution context it was applied with and the payload list. -/
structure ActionCall (St : Type) where
  ctx : St
  payload : List JSVal
deriving DecidableEq, Repr

/-- The set closure of useGetter (lines 207-215) as a step function: given the
current previousValue and the assigned value, skip when they are strictly
equal, otherwise update previousValue and invoke the action with the new value
prepended to the extra payload, applied with the getter's bound store as
context. -/
def bindingSetStep {St : Type} (store : St) (additionalPayload : List JSVal)
    (prev : JSVal) (value : JSVal) : JSVal × Option (ActionCall St) :=
  if value = prev then (prev, none)
  else (value, some ⟨store, value :: additionalPayload⟩)

/-- Running a sequence of assignments through one writable binding, collecting
the action invocations in order. A fresh binding starts with previousValue
undefined (let previousValue, line 189). -/
def runAssignments {St : Type} (store : St) (additionalPayload : List JSVal)
    (prev : JSVal) : List JSVal → JSVal × List (ActionCall St)
  | [] => (prev, [])
  | v :: vs =>
    match bindingSetStep store additionalPayload prev v with
    | (p2, none) => runAssignments store additionalPayload p2 vs
    | (p2, some c) =>
      let r := runAssignments store additionalPayload p2 vs
      (r.1, c :: r.2)

/-! Getter factory resolver (getters-utils.ts, useGetterFactory). -/

/-- An argument passed to useGetterFactory: either a plain value or a Vue ref
currently holding a value. -/
inductive FactoryArg where
  | plain (v : JSVal)
  | refOf (v : JSVal)
deriving DecidableEq, Repr

/-- The isRef test of Vue: true exactly on refs. -/
def isRefArg : FactoryArg → Bool
  | .refOf _ => true
  | .plain _ => false

/-- Result of typeof on a factory argument: a ref is an object. -/
def typeofArg : FactoryArg → String
  | .plain v => typeofVal v
  | .refOf _ => "object"

/-- The .value read of an argument. In the source this access is only reached
behind an isRef guard, so the plain case is never observed. -/
def refValue : FactoryArg → JSVal
  | .refOf v => v
  | .plain _ => .vundefined

/-- OBJECT_TYPES_TYPEOF_VALUES (constants.ts line 21). -/
def OBJECT_TYPES_TYPEOF_VALUES : List String := ["object", "function"]

/-- isRefOfPrimitive exactly as implemented (getters-utils lines 156-158):
isRef(variable) and OBJECT_TYPES_TYPEOF_VALUES.includes(typeof variable.value).
Note that this is true precisely when the variable is a ref whose current
value has typeof object or function. -/
def isRefOfPrimitive (a : FactoryArg) : Bool :=
  isRefArg a && OBJECT_TYPES_TYPEOF_VALUES.contains (typeofVal (refValue a))

/-- The arg !== null test of the some() predicate in useGetterFactory. -/
def argNotNull : FactoryArg → Bool
  | .plain .vnull => false
  | _ => true

/-- shouldAlwaysRecompute as computed by useGetterFactory (lines 237-241):
some argument is non-null, of object or function typeof, and fails
isRefOfPrimitive; such a call bypasses the registry and builds a fresh pull
function on every invocation (lines 251-272). -/
def shouldAlwaysRecompute (args : List FactoryArg) : Bool :=
  args.any (fun a =>
    argNotNull a && OBJECT_TYPES_TYPEOF_VALUES.contains (typeofArg a)
      && !(isRefOfPrimitive a))

/-- Modelled from the spec: the non-cacheability classification the spec
states for useGetterFactory — some argument of object or function type that is
not itself a ref holding a primitive (where a primitive is a value whose
typeof is neither object nor function). Written from the words of the spec,
for comparison with shouldAlwaysRecompute. -/
def specNonCacheable (args : List FactoryArg) : Bool :=
  args.any (fun a =>
    OBJECT_TYPES_TYPEOF_VALUES.contains (typeofArg a)
      && !(isRefArg a && !(OBJECT_TYPES_TYPEOF_VALUES.contains (typeofVal (refValue a)))))

/-! Action dispatch and subscription bus (plugin.ts and pinia-subscriptions.ts). -/

/-- A subscriber callback registered on the action bus. Only the behaviour
relevant to the claims is modelled: the after callback (if any) and whether an
onError callback it registers through the notification descriptor when
notified, plus bookkeeping of which store's onAction registered it — the code
itself records nothing of the kind, which is the point of the scoping claim. -/
structure Subscriber where
  id : Nat
  registeredVia : Nat
  afterCb : Option (JSVal → JSVal)
  registersOnError : Bool

/-- The module-level subscription list of plugin.ts line 38: a single mutable
list living at module scope, shared by every store the plugin is installed on. -/
structure BusState where
  actionSubscriptions : List Subscriber

/-- Per-store closure state of PiniaExtractPlugin (lines 44-45): the store
identity and the isDisposed flag captured by that store's plugin closure. -/
structure StoreCtx where
  storeId : Nat
  isDisposed : Bool
deriving DecidableEq, Repr

/-- onAction registration (plugin lines 56-66): addSubscription
(pinia-subscriptions lines 7-29) pushes the callback onto the shared
module-level list. -/
def busOnAction (bus : BusState) (sub : Subscriber) : BusState :=
  ⟨bus.actionSubscriptions ++ [sub]⟩

/-- dispose (plugin lines 51-55): sets this store closure's isDisposed flag
and resets the module-level subscription list to a new empty list. -/
def disposeStore (_bus : BusState) (st : StoreCtx) : BusState × StoreCtx :=
  (⟨[]⟩, ⟨st.storeId, true⟩)

/-- Observable events fired on the bus during one action dispatch. The
afterFired event records the value the callback was invoked with together with
the value the callback returned. -/
inductive BusEvent where
  | notified (subId : Nat) (dispatchStore : Nat) (args : List JSVal)
  | afterFired (subId : Nat) (calledWith : JSVal) (callbackReturned : JSVal)
  | errorFired (subId : Nat) (error : String)
deriving DecidableEq, Repr

/-- Outcome of running the action combiner against the store state: a
synchronous return that is not a Promise, a synchronous throw, or a Promise
that eventually resolves or rejects. -/
inductive CombinerOutcome where
  | ok (v : JSVal)
  | err (e : String)
  | promiseOk (v : JSVal)
  | promiseErr (e : String)
deriving DecidableEq, Repr

/-- What the action call delivers to its caller: a thrown error, a direct
return value, or a Promise settling with a value or an error. -/
inductive DispatchResult where
  | threw (e : String)
  | returned (v : JSVal)
  | resolved (v : JSVal)
  | rejected (e : String)
deriving DecidableEq, Repr

/-- Full outcome of one action call: the store state afterwards, the bus
events fired in order, and what the caller receives. -/
structure DispatchOutcome where
  storeState : JSVal
  events : List BusEvent
  result : DispatchResult
deriving DecidableEq, Repr

/-- The action produced by defineAction (plugin lines 97-149). When the store
closure is disposed it throws the disposed-store ReferenceError before any
notification or state access. Otherwise every subscriber in the shared list is
notified with the descriptor carrying the arguments, the dispatching store and
the after/onError registration hooks; then the combiner runs against the store
state with the original arguments. triggerSubscriptions
(pinia-subscriptions lines 34-41) invokes callbacks with forEach and discards
their return values, so the after callbacks are invoked with the result while
the caller receives the combiner result itself, and error callbacks fire
before the error re-propagates. -/
def dispatchAction (bus : BusState) (st : StoreCtx) (stState : JSVal)
    (combiner : JSVal → JSVal × CombinerOutcome) (args : List JSVal) :
    DispatchOutcome :=
  if st.isDisposed then
    ⟨stState, [], .threw "Failed to dispatch action on disposed store."⟩
  else
    let subs := bus.actionSubscriptions
    let beforeEvents := subs.map (fun s => BusEvent.notified s.id st.storeId args)
    let afterCallbackList := subs.filterMap (fun s => s.afterCb.map (fun f => (s.id, f)))
    let onErrorIds := (subs.filter (fun s => s.registersOnError)).map (fun s => s.id)
    match combiner stState with
    | (s2, .err e) =>
      ⟨s2, beforeEvents ++ onErrorIds.map (fun i => BusEvent.errorFired i e), .threw e⟩
    | (s2, .ok v) =>
      ⟨s2, beforeEvents ++ afterCallbackList.map (fun c => BusEvent.afterFired c.1 v (c.2 v)),
        .returned v⟩
    | (s2, .promiseOk v) =>
      ⟨s2, beforeEvents ++ afterCallbackList.map (fun c => BusEvent.afterFired c.1 v (c.2 v)),
        .resolved v⟩
    | (s2, .promiseErr e) =>
      ⟨s2, beforeEvents ++ onErrorIds.map (fun i => BusEvent.errorFired i e), .rejected e⟩

/-- The module-level mutable bindings of the whole library: the shared action
subscription list (plugin.ts line 38) together with the two getter registries
of getters-utils (call-site registry keyed by getter identity, lines 113-125,
and factory registry keyed by factory identity and argument key, lines 92-104),
the registries modelled by their key sets. -/
structure ModuleWorld where
  bus : BusState
  getterRegistryKeys : List Nat
  factoryRegistryKeys : List (Nat × String)

/-- dispose at module-world level: the plugin's dispose body (lines 51-55)
mentions only isDisposed and actionSubscriptions, so the getter registries are
left untouched. -/
def disposeWorld (w : ModuleWorld) (st : StoreCtx) : ModuleWorld × StoreCtx :=
  ({ w with bus := ⟨[]⟩ }, ⟨st.storeId, true⟩)

/-! Theorems. -/

/-- Helper: threading the root state through any access path leaves it
unchanged, because neither the get trap nor ambient property reading writes
anything in any branch. -/
theorem readPathSt_preserves_root (p : List PropKey) (r : ViewRead) (root : JSVal) :
    (readPathSt (r, root) p).2 = root := by
  induction p generalizing r root with
  | nil => rfl
  | cons k ks ih =>
    cases r with
    | view t => simpa [readPathSt, readStepSt] using ih (proxyGet t k) root
    | raw v => simpa [readPathSt, readStepSt] using ih (.raw (jsGet v k)) root

/-- C1: a getter composed by defineGetter from dependencies d1..dn and
combiner C satisfies G(S) = C applied with the owning store as context to
[d1(S), ..., dn(S)] evaluated against the same S in declared order, and for an
empty dependency list G(S) = C(S) with S as the sole combiner argument; the
owning store is attached to the getter; and in the concrete scenario getSum
applied to the state data.codes.a = 2, status = 1 yields 3. -/
theorem c1_composed_getter_semantics {St : Type} (store : St)
    (deps : List (JSVal → JSVal)) (C : St → List JSVal → JSVal) (S : JSVal) :
    (deps ≠ [] →
      (defineGetter store deps C).run S = C store (deps.map (fun d => d S)))
    ∧ (deps = [] → (defineGetter store deps C).run S = C store [S])
    ∧ (defineGetter store deps C).store = store
    ∧ getSum.run specScenarioState = JSVal.vnum 3 := by
  refine ⟨?_, ?_, rfl, by rfl⟩
  · intro h
    cases deps with
    | nil => exact absurd rfl h
    | cons d ds => simp [defineGetter]
  · intro h
    subst h
    simp [defineGetter]

/-- Witness for C1: the nonempty-dependency clause instantiated at the
scenario getter getCodes on the scenario state. -/
theorem c1_composed_getter_semantics_witness :
    (defineGetter () [fun s => getField s "data"]
        (fun _ vs => getField (vs.getD 0 .vundefined) "codes")).run specScenarioState
      = (fun (_ : Unit) (vs : List JSVal) => getField (vs.getD 0 .vundefined) "codes") ()
          ([fun s => getField s "data"].map (fun d => d specScenarioState)) :=
  (c1_composed_getter_semantics () [fun s => getField s "data"]
    (fun _ vs => getField (vs.getD 0 .vundefined) "codes") specScenarioState).1
    (List.cons_ne_nil _ _)

/-- C2: for every raw state, reading any access path through the immutable
view leaves the raw state unchanged, and any property assignment on any view
reached through any path fails with the ReferenceError message
Mutations in getters are not allowed. -/
theorem c2_immutable_view_guard (S : JSVal) (p : List PropKey) (k : PropKey) (v : JSVal) :
    (readPathSt (ViewRead.view S, S) p).2 = S
    ∧ (∀ t, (readPathSt (ViewRead.view S, S) p).1 = ViewRead.view t →
        proxyMutate t (MutOp.assign k v) = Except.error mutationGuardMsg) :=
  ⟨readPathSt_preserves_root p (ViewRead.view S) S, fun _ _ => rfl⟩

/-- Witness for C2 at the scenario state and the path data.codes, with the
assignment of 5 to key a on the reached view. -/
theorem c2_immutable_view_guard_witness :
    (readPathSt (ViewRead.view specScenarioState, specScenarioState)
        [PropKey.str "data", PropKey.str "codes"]).2 = specScenarioState
    ∧ proxyMutate (JSVal.vobj (.cons "a" (.vnum 2) .nil))
        (MutOp.assign (PropKey.str "a") (JSVal.vnum 5)) = Except.error mutationGuardMsg :=
  ⟨(c2_immutable_view_guard specScenarioState [PropKey.str "data", PropKey.str "codes"]
      (PropKey.str "a") (JSVal.vnum 5)).1,
   (c2_immutable_view_guard specScenarioState [PropKey.str "data", PropKey.str "codes"]
      (PropKey.str "a") (JSVal.vnum 5)).2 (JSVal.vobj (.cons "a" (.vnum 2) .nil)) (by decide)⟩

/-- C8 counterexample: deleting a property through the immutable view is not
intercepted: on the raw state with field a = 2 the deletion succeeds instead of
failing with the guard error, and it removes the field from the raw state. -/
theorem c8_delete_not_guarded :
    proxyMutate (JSVal.vobj (.cons "a" (.vnum 2) .nil)) (MutOp.deleteProp "a")
      = Except.ok (JSVal.vobj .nil)
    ∧ Except.ok (JSVal.vobj .nil)
      ≠ (Except.error mutationGuardMsg : Except String JSVal)
    ∧ JSVal.vobj .nil ≠ JSVal.vobj (.cons "a" (.vnum 2) .nil) := by
  exact ⟨rfl, by simp, by decide⟩

/-- C8 amended: the handler declares only get and set traps, so plain
assignment on a view always fails with the guard error, while property
deletion and property redefinition are forwarded untrapped to the raw target
and succeed, mutating the underlying raw state. -/
theorem c8_amended_trap_coverage (t : JSVal) (k : PropKey) (ks : String) (v : JSVal) :
    proxyMutate t (MutOp.assign k v) = Except.error mutationGuardMsg
    ∧ proxyMutate t (MutOp.deleteProp ks) = Except.ok (deleteField t ks)
    ∧ proxyMutate t (MutOp.defineProp ks v) = Except.ok (setField t ks v) :=
  ⟨rfl, rfl, rfl⟩

/-- C9 counterexample: a function-valued property read through the view is
returned raw, not wrapped into a view, because the get trap compares typeof
against object only and a function has typeof function. -/
theorem c9_function_not_wrapped :
    proxyGet (JSVal.vobj (.cons "f" (.vfunc 0) .nil)) (PropKey.str "f")
      = ViewRead.raw (JSVal.vfunc 0)
    ∧ ViewRead.raw (JSVal.vfunc 0) ≠ ViewRead.view (JSVal.vfunc 0) := by
  exact ⟨rfl, by decide⟩

/-- C9 amended: reading the reserved unwrap marker returns the raw target
itself; reading a property whose current value is a non-null object returns a
new immutable view over that value; reading any other property — function
values included — returns the value directly. -/
theorem c9_amended_get_trap (t : JSVal) (k : String) :
    proxyGet t PropKey.unwrapSymbol = ViewRead.raw t
    ∧ (typeofVal (getField t k) = "object" ∧ getField t k ≠ JSVal.vnull →
        proxyGet t (PropKey.str k) = ViewRead.view (getField t k))
    ∧ (¬(typeofVal (getField t k) = "object" ∧ getField t k ≠ JSVal.vnull) →
        proxyGet t (PropKey.str k) = ViewRead.raw (getField t k)) := by
  refine ⟨rfl, ?_, ?_⟩
  · intro h
    simp only [proxyGet]
    rw [if_pos h]
  · intro h
    simp only [proxyGet]
    rw [if_neg h]

/-- Witness for C9 amended at the scenario state: the object-valued key data
comes back as a view, the primitive-valued key status comes back raw. -/
theorem c9_amended_get_trap_witness :
    proxyGet specScenarioState (PropKey.str "data")
      = ViewRead.view (getField specScenarioState "data")
    ∧ proxyGet specScenarioState (PropKey.str "status")
      = ViewRead.raw (getField specScenarioState "status") :=
  ⟨(c9_amended_get_trap specScenarioState "data").2.1 (by decide),
   (c9_amended_get_trap specScenarioState "status").2.2 (by decide)⟩

/-- C10: when a getter bound through useGetter or useGetterFactory evaluates
to a raw non-proxied object — such as a fresh object built by the combiner
rather than a node of the state tree — the pull function treats it as an
immutable view, reads its absent unwrap-marker property, and the binding
yields undefined. -/
theorem c10_fresh_object_reads_undefined (storeState : JSVal)
    (getter : JSVal → ViewRead) (fs : JSFields)
    (h : getter storeState = ViewRead.raw (JSVal.vobj fs)) :
    useGetterPull storeState getter = ViewRead.raw JSVal.vundefined := by
  simp [useGetterPull, h, checkImmutability, typeofRead, isNullRead, readUnwrapKey,
    jsGet, typeofVal]

/-- Witness for C10: a getter returning the fresh object with field x = 1
reads as undefined through the binding. -/
theorem c10_fresh_object_reads_undefined_witness :
    useGetterPull JSVal.vnull
        (fun _ => ViewRead.raw (JSVal.vobj (.cons "x" (.vnum 1) .nil)))
      = ViewRead.raw JSVal.vundefined :=
  c10_fresh_object_reads_undefined JSVal.vnull
    (fun _ => ViewRead.raw (JSVal.vobj (.cons "x" (.vnum 1) .nil)))
    (.cons "x" (.vnum 1) .nil) rfl

/-- C3: evaluation of the argument classification at the failing input. A ref
holding the primitive 1 is classified non-cacheable by the code although the
spec classification caches it, and a ref holding an object is classified
cacheable by the code although the spec classification recomputes it —
isRefOfPrimitive as implemented holds exactly of refs whose value has typeof
object or function, the inverse of its name, its doc comment and the README.
Plain primitive arguments and plain object arguments behave as claimed. -/
theorem c3_ref_classification_inverted :
    shouldAlwaysRecompute [FactoryArg.refOf (JSVal.vnum 1)] = true
    ∧ specNonCacheable [FactoryArg.refOf (JSVal.vnum 1)] = false
    ∧ shouldAlwaysRecompute [FactoryArg.refOf (JSVal.vobj .nil)] = false
    ∧ specNonCacheable [FactoryArg.refOf (JSVal.vobj .nil)] = true
    ∧ isRefOfPrimitive (FactoryArg.refOf (JSVal.vnum 1)) = false
    ∧ isRefOfPrimitive (FactoryArg.refOf (JSVal.vobj .nil)) = true
    ∧ shouldAlwaysRecompute [FactoryArg.plain (JSVal.vnum 1),
        FactoryArg.plain (JSVal.vbool true), FactoryArg.plain (JSVal.vstr "x")] = false
    ∧ specNonCacheable [FactoryArg.plain (JSVal.vnum 1),
        FactoryArg.plain (JSVal.vbool true), FactoryArg.plain (JSVal.vstr "x")] = false
    ∧ shouldAlwaysRecompute [FactoryArg.plain (JSVal.vobj .nil)] = true
    ∧ shouldAlwaysRecompute [FactoryArg.plain (JSVal.vfunc 0)] = true := by
  decide

/-- C4 counterexample: a fresh writable binding starts with previousValue
undefined, so the very first assignment of the value undefined is coalesced
away and the backing action is invoked zero times, not exactly once. -/
theorem c4_undefined_first_write_skipped :
    (runAssignments () [] JSVal.vundefined (List.replicate 1 JSVal.vundefined)).2
      = ([] : List (ActionCall Unit))
    ∧ ([] : List (ActionCall Unit)).length ≠ 1 := by
  exact ⟨rfl, by decide⟩

/-- Helper: assignments of a value equal to the stored previousValue are all
skipped and invoke no action. -/
theorem runAssignments_replicate_same {St : Type} (store : St) (payload : List JSVal)
    (v : JSVal) (k : Nat) :
    runAssignments store payload v (List.replicate k v) = (v, []) := by
  induction k with
  | zero => rfl
  | succ m ih => simp [List.replicate_succ, runAssignments, bindingSetStep, ih]

/-- C4 amended: an assignment through a writable binding is skipped exactly
when the new value is strictly equal to the stored previousValue, which starts
as undefined on a fresh binding; hence N consecutive assignments (N at least
one) of the same value v invoke the backing action exactly once, applied with
the bound store as context and with v prepended to the extra fixed arguments —
except that they invoke it zero times when v equals the stored previousValue,
in particular when undefined is the first value ever assigned. -/
theorem c4_amended_write_coalescing {St : Type} (store : St)
    (payload : List JSVal) (prev v : JSVal) (n : Nat) (hn : 1 ≤ n) :
    (runAssignments store payload prev (List.replicate n v)).2
      = if v = prev then [] else [⟨store, v :: payload⟩] := by
  obtain ⟨m, rfl⟩ : ∃ m, n = m + 1 := ⟨n - 1, by omega⟩
  by_cases h : v = prev
  · subst h
    simp [runAssignments_replicate_same]
  · simp [List.replicate_succ, runAssignments, bindingSetStep, h,
      runAssignments_replicate_same]

/-- Witness for C4 amended: five consecutive assignments of 10 through a fresh
binding with extra payload 20 invoke the action exactly once, with payload
10, 20. -/
theorem c4_amended_write_coalescing_witness :
    (runAssignments () [JSVal.vnum 20] JSVal.vundefined
        (List.replicate 5 (JSVal.vnum 10))).2
      = if JSVal.vnum 10 = JSVal.vundefined then []
        else [ActionCall.mk () [JSVal.vnum 10, JSVal.vnum 20]] :=
  c4_amended_write_coalescing () [JSVal.vnum 20] JSVal.vundefined (JSVal.vnum 10) 5
    (by decide)

/-- C5: dispatching any action on a disposed store throws the disposed-store
ReferenceError immediately: the store state is returned untouched, no
subscriber notification of any kind fires, and the caller receives the thrown
error; the same holds for every dispatch performed on the store after
disposeStore, so subscribers registered before disposal receive no further
notifications from that store. -/
theorem c5_disposed_dispatch_inert (bus bus2 : BusState) (st : StoreCtx)
    (stState : JSVal) (combiner : JSVal → JSVal × CombinerOutcome)
    (args : List JSVal) (h : st.isDisposed = true) :
    dispatchAction bus st stState combiner args
      = ⟨stState, [], .threw "Failed to dispatch action on disposed store."⟩
    ∧ dispatchAction bus2 (disposeStore bus st).2 stState combiner args
      = ⟨stState, [], .threw "Failed to dispatch action on disposed store."⟩ := by
  constructor
  · simp [dispatchAction, h]
  · simp [dispatchAction, disposeStore]

/-- Witness for C5: a dispatch on a disposed store with a state-mutating
combiner leaves the state at 5, fires nothing, and throws. -/
theorem c5_disposed_dispatch_inert_witness :
    dispatchAction ⟨[]⟩ ⟨0, true⟩ (JSVal.vnum 5)
        (fun _ => (JSVal.vnum 99, CombinerOutcome.ok (JSVal.vnum 99))) []
      = ⟨JSVal.vnum 5, [],
          DispatchResult.threw "Failed to dispatch action on disposed store."⟩ :=
  (c5_disposed_dispatch_inert ⟨[]⟩ ⟨[]⟩ ⟨0, true⟩ (JSVal.vnum 5)
    (fun _ => (JSVal.vnum 99, CombinerOutcome.ok (JSVal.vnum 99))) [] rfl).1

/-- C6 counterexample: with the single module-level subscription list, a
subscriber registered through the onAction of store 0 is notified by an action
dispatched on store 1, and disposing store 0 wipes a subscription that was
registered through store 1, leaving the shared list empty. -/
theorem c6_cross_store_notification :
    (dispatchAction (busOnAction ⟨[]⟩ ⟨7, 0, none, false⟩) ⟨1, false⟩ JSVal.vnull
        (fun s => (s, CombinerOutcome.ok JSVal.vundefined)) []).events
      = [BusEvent.notified 7 1 []]
    ∧ (disposeStore (busOnAction ⟨[]⟩ ⟨8, 1, none, false⟩)
        ⟨0, false⟩).1.actionSubscriptions.length = 0 := by
  exact ⟨rfl, rfl⟩

/-- C6 amended: the subscription list is one module-level list shared by all
stores: an action dispatched on any non-disposed store notifies every
subscriber of the shared list in registration order, whichever store
registered it; disposing any store clears the entire shared list and marks
only that store disposed, while leaving both getter registries untouched. -/
theorem c6_amended_shared_subscription_list (bus : BusState) (st : StoreCtx)
    (stState : JSVal) (combiner : JSVal → JSVal × CombinerOutcome)
    (args : List JSVal) (w : ModuleWorld) (stB : StoreCtx)
    (h : st.isDisposed = false) :
    (∃ rest, (dispatchAction bus st stState combiner args).events
        = bus.actionSubscriptions.map
            (fun s => BusEvent.notified s.id st.storeId args) ++ rest)
    ∧ (disposeWorld w stB).1.bus.actionSubscriptions = []
    ∧ (disposeWorld w stB).2 = ⟨stB.storeId, true⟩
    ∧ (disposeWorld w stB).1.getterRegistryKeys = w.getterRegistryKeys
    ∧ (disposeWorld w stB).1.factoryRegistryKeys = w.factoryRegistryKeys := by
  refine ⟨?_, rfl, rfl, rfl, rfl⟩
  unfold dispatchAction
  simp only [h, Bool.false_eq_true, if_false]
  rcases hc : combiner stState with ⟨s2, out⟩
  cases out <;> exact ⟨_, rfl⟩

/-- Witness for C6 amended: disposing store 0 leaves the getter registry keys
of the module world intact. -/
theorem c6_amended_shared_subscription_list_witness :
    (disposeWorld ⟨busOnAction ⟨[]⟩ ⟨8, 1, none, false⟩, [3], [(4, "1")]⟩
        ⟨0, false⟩).1.getterRegistryKeys = [3] :=
  (c6_amended_shared_subscription_list ⟨[]⟩ ⟨1, false⟩ JSVal.vnull
    (fun s => (s, CombinerOutcome.ok JSVal.vundefined)) []
    ⟨busOnAction ⟨[]⟩ ⟨8, 1, none, false⟩, [3], [(4, "1")]⟩ ⟨0, false⟩ rfl).2.2.2.1

/-- C7: evaluation at the failing input. One subscriber registers an after
callback that returns 2; the combiner returns 1 synchronously in the first
conjunct and as an eventually resolving Promise in the second: the callback
fires, invoked with 1 and returning 2, yet the caller receives 1 in both
cases — triggerSubscriptions discards callback return values, so after
callbacks cannot override the action result. -/
theorem c7_after_callback_cannot_override :
    dispatchAction ⟨[⟨7, 0, some (fun _ => JSVal.vnum 2), false⟩]⟩ ⟨0, false⟩
        JSVal.vnull (fun s => (s, CombinerOutcome.ok (JSVal.vnum 1))) []
      = ⟨JSVal.vnull,
          [BusEvent.notified 7 0 [],
            BusEvent.afterFired 7 (JSVal.vnum 1) (JSVal.vnum 2)],
          DispatchResult.returned (JSVal.vnum 1)⟩
    ∧ (dispatchAction ⟨[⟨7, 0, some (fun _ => JSVal.vnum 2), false⟩]⟩ ⟨0, false⟩
        JSVal.vnull (fun s => (s, CombinerOutcome.promiseOk (JSVal.vnum 1))) []).result
      = DispatchResult.resolved (JSVal.vnum 1)
    ∧ DispatchResult.returned (JSVal.vnum 1) ≠ DispatchResult.returned (JSVal.vnum 2) := by
  refine ⟨rfl, rfl, by decide⟩

end PiniaExtract
